import Mathlib

/-!
Verification of the transform-and-render engine of the `LinearAlgebraIntro`
React component (`src/src/App.tsx`): the coordinate model, the 2×2 matrix
transform, the pointer-event state machine that populates the point
collection, and the redraw pipeline. JavaScript numbers are modelled as
rationals (`ℚ`); the one place where the `NaN` value matters (the slider
parse path) uses `Option ℚ`, with `none` standing for `NaN`.
-/

namespace LinearAlgebraIntro

/-- Embeds the `Point` interface of `App.tsx`: a pair of plane coordinates. -/
structure Point where
  x : ℚ
  y : ℚ
deriving DecidableEq, Repr

/-- Embeds `const CANVAS_WIDTH = 500`. -/
def CANVAS_WIDTH : ℚ := 500

/-- Embeds `const CANVAS_HEIGHT = 500`. -/
def CANVAS_HEIGHT : ℚ := 500

/-- Embeds the matrix state of `App.tsx` (a `number[][]` that is always of
shape 2×2), modelled as a total function of the two indices. -/
abbrev Matrix2x2 := Fin 2 → Fin 2 → ℚ

/-- Embeds the matrix literal `[[1, 0], [0, 1]]`, used both as the initial
`useState` value and as the value installed by `resetMatrix`. -/
def identityMatrix : Matrix2x2 := ![![1, 0], ![0, 1]]

/-- Embeds `applyMatrix(pt, matrix)` of `App.tsx`:
`x: pt.x * matrix[0][0] + pt.y * matrix[0][1]`,
`y: pt.x * matrix[1][0] + pt.y * matrix[1][1]`. -/
def applyMatrix (pt : Point) (matrix : Matrix2x2) : Point :=
  { x := pt.x * matrix 0 0 + pt.y * matrix 0 1
    y := pt.x * matrix 1 0 + pt.y * matrix 1 1 }

/-- Pointwise sum of two points, for stating linearity of `applyMatrix`. -/
def Point.add (p q : Point) : Point := { x := p.x + q.x, y := p.y + q.y }

/-- Scalar multiple of a point, for stating linearity of `applyMatrix`. -/
def Point.smul (k : ℚ) (p : Point) : Point := { x := k * p.x, y := k * p.y }

/-- Embeds the device-to-plane conversion performed inline by
`addPointFromEvent`: `x = deviceX - CANVAS_WIDTH / 2` and
`y = -(deviceY - CANVAS_HEIGHT / 2)` (the y-axis flip), where `deviceX`
and `deviceY` are coordinates relative to the canvas's top-left corner. -/
def toPlane (deviceX deviceY : ℚ) : Point :=
  { x := deviceX - CANVAS_WIDTH / 2
    y := -(deviceY - CANVAS_HEIGHT / 2) }

/-- Embeds the plane-to-device positioning performed inline by `drawPoint`:
the marker for `pt` is centred at
`(pt.x + CANVAS_WIDTH / 2, -pt.y + CANVAS_HEIGHT / 2)`. -/
def toDevice (pt : Point) : ℚ × ℚ :=
  (pt.x + CANVAS_WIDTH / 2, -pt.y + CANVAS_HEIGHT / 2)

/-- Embeds the fields of a canvas mouse event that `addPointFromEvent` reads. -/
structure MouseEventData where
  clientX : ℚ
  clientY : ℚ
deriving DecidableEq, Repr

/-- Embeds `canvasRef.current.getBoundingClientRect()`: the position of the
canvas within the page. -/
structure Rect where
  left : ℚ
  top : ℚ
deriving DecidableEq, Repr

/-- Embeds the mutable state of the component: the `originalPoints` and
`matrix` React states and the `isDrawing` ref. -/
structure AppState where
  originalPoints : List Point
  matrix : Matrix2x2
  isDrawing : Bool

/-- Embeds the state at mount: no points, identity matrix, not drawing. -/
def initialState : AppState :=
  { originalPoints := [], matrix := identityMatrix, isDrawing := false }

/-- The plane point that `addPointFromEvent` computes from a mouse event:
`x = e.clientX - rect.left - CANVAS_WIDTH / 2`,
`y = -(e.clientY - rect.top - CANVAS_HEIGHT / 2)`. -/
def eventPoint (rect : Rect) (e : MouseEventData) : Point :=
  toPlane (e.clientX - rect.left) (e.clientY - rect.top)

/-- Embeds `addPointFromEvent`: converts the event's device coordinates to
plane coordinates and appends the result to `originalPoints`. -/
def addPointFromEvent (rect : Rect) (s : AppState) (e : MouseEventData) :
    AppState :=
  { s with originalPoints := s.originalPoints ++ [eventPoint rect e] }

/-- Embeds `handleMouseDown`: sets `isDrawing.current = true` and calls
`addPointFromEvent`. -/
def handleMouseDown (rect : Rect) (s : AppState) (e : MouseEventData) :
    AppState :=
  addPointFromEvent rect { s with isDrawing := true } e

/-- Embeds `handleMouseMove`: calls `addPointFromEvent` only when
`isDrawing.current` is set. -/
def handleMouseMove (rect : Rect) (s : AppState) (e : MouseEventData) :
    AppState :=
  if s.isDrawing then addPointFromEvent rect s e else s

/-- Embeds `handleMouseUp`: clears `isDrawing.current`; nothing else. -/
def handleMouseUp (s : AppState) : AppState :=
  { s with isDrawing := false }

/-- The canvas events the JSX wires up: `onMouseDown`, `onMouseMove`,
`onMouseUp` and `onMouseLeave`. -/
inductive CanvasEvent where
  | mouseDown (e : MouseEventData)
  | mouseMove (e : MouseEventData)
  | mouseUp
  | mouseLeave
deriving DecidableEq, Repr

/-- Embeds the event wiring of the `<canvas>` element: `onMouseDown`,
`onMouseMove` and `onMouseUp` go to their handlers, and `onMouseLeave` is
wired to `handleMouseUp` as well. -/
def step (rect : Rect) (s : AppState) : CanvasEvent → AppState
  | .mouseDown e => handleMouseDown rect s e
  | .mouseMove e => handleMouseMove rect s e
  | .mouseUp => handleMouseUp s
  | .mouseLeave => handleMouseUp s

/-- Embeds `clearCanvas`: `setOriginalPoints([])`; the matrix is untouched. -/
def clearCanvas (s : AppState) : AppState :=
  { s with originalPoints := [] }

/-- Embeds `resetMatrix`: a single `setMatrix([[1, 0], [0, 1]])` call, so all
four cells change in one state transition. -/
def resetMatrix (s : AppState) : AppState :=
  { s with matrix := ![![1, 0], ![0, 1]] }

/-- Embeds the matrix update inside `handleSliderChange`: deep-copy the rows
(`[...matrix.map(row => [...row])]`) and overwrite the single cell
`newMatrix[i][j] = value`. -/
def updateCell (matrix : Matrix2x2) (i j : Fin 2) (value : ℚ) : Matrix2x2 :=
  fun i' j' => if i' = i ∧ j' = j then value else matrix i' j'

/-- Embeds `handleSliderChange(i, j, value)`: stores the copied-and-updated
matrix via `setMatrix`; the point collection is untouched. -/
def handleSliderChange (s : AppState) (i j : Fin 2) (value : ℚ) : AppState :=
  { s with matrix := updateCell s.matrix i j value }

/-- Embeds the CSS colour strings used by the render code. -/
inductive Color where
  | black
  | blue
  | red
deriving DecidableEq, Repr

/-- Embeds the primitive canvas operations the render code issues. -/
inductive DrawCmd where
  | clearRect (x y w h : ℚ)
  | line (x1 y1 x2 y2 : ℚ) (color : Color) (lineWidth : ℚ)
  | fillCircle (cx cy radius : ℚ) (color : Color)
  | strokeCircle (cx cy radius : ℚ) (color : Color) (lineWidth : ℚ)
deriving DecidableEq, Repr

/-- Embeds `drawAxes(ctx)`: the horizontal axis line through
`(0, CANVAS_HEIGHT / 2)`–`(CANVAS_WIDTH, CANVAS_HEIGHT / 2)` and the vertical
line through `(CANVAS_WIDTH / 2, 0)`–`(CANVAS_WIDTH / 2, CANVAS_HEIGHT)`,
both stroked black with width 1. -/
def drawAxes : List DrawCmd :=
  [ DrawCmd.line 0 (CANVAS_HEIGHT / 2) CANVAS_WIDTH (CANVAS_HEIGHT / 2)
      Color.black 1
  , DrawCmd.line (CANVAS_WIDTH / 2) 0 (CANVAS_WIDTH / 2) CANVAS_HEIGHT
      Color.black 1 ]

/-- Embeds `drawPoint(ctx, pt, color, filled)`: an arc of radius 5 at
`(pt.x + CANVAS_WIDTH / 2, -pt.y + CANVAS_HEIGHT / 2)`, filled when `filled`
and stroked with width 2 otherwise. -/
def drawPoint (pt : Point) (color : Color) (filled : Bool) : DrawCmd :=
  if filled then
    DrawCmd.fillCircle (pt.x + CANVAS_WIDTH / 2) (-pt.y + CANVAS_HEIGHT / 2)
      5 color
  else
    DrawCmd.strokeCircle (pt.x + CANVAS_WIDTH / 2) (-pt.y + CANVAS_HEIGHT / 2)
      5 color 2

/-- Embeds the `useEffect` render pipeline: clear the full canvas, draw the
axes, draw every original point as a filled blue marker, then draw the
`applyMatrix` image of every original point as a stroked red marker. -/
def render (originalPoints : List Point) (matrix : Matrix2x2) : List DrawCmd :=
  DrawCmd.clearRect 0 0 CANVAS_WIDTH CANVAS_HEIGHT ::
    (drawAxes ++
      originalPoints.map (fun pt => drawPoint pt Color.blue true) ++
      originalPoints.map
        (fun pt => drawPoint (applyMatrix pt matrix) Color.red false))

/-- Holds exactly for the commands that draw a point marker. -/
def isPointMarker : DrawCmd → Bool
  | .fillCircle .. => true
  | .strokeCircle .. => true
  | _ => false

/-- A JavaScript number as a matrix cell may hold: `none` models `NaN` (the
result of a failed `parseFloat`), `some q` a finite numeric value. -/
abbrev JSNum := Option ℚ

/-- The matrix state with cells as JavaScript numbers, for following the
slider `onChange` path where a `NaN` can be stored. -/
abbrev JSMatrix := Fin 2 → Fin 2 → JSNum

/-- Digit-string value, or `none` when empty or not all digits. -/
def parseDigits (cs : List Char) : Option Nat :=
  if cs = [] ∨ ¬ cs.all Char.isDigit then none
  else some (cs.foldl (fun n c => 10 * n + (c.toNat - 48)) 0)

/-- Modelled from the spec: the JavaScript `parseFloat` builtin used by the
slider `onChange` wiring is not repository code. Following the spec's
"malformed numeric input from a control (e.g., non-numeric parse)", a string
of the form optional sign, digits, optional decimal point and digits parses
to `some` rational, and a malformed (non-numeric-parsing) string yields
`none`, standing for the `NaN` that `parseFloat` returns on it. -/
def parseFloatJS (s : String) : JSNum :=
  let go : List Char → JSNum := fun cs =>
    let intPart := cs.takeWhile Char.isDigit
    let rest := cs.dropWhile Char.isDigit
    match rest with
    | [] => (parseDigits intPart).map (fun n => (n : ℚ))
    | '.' :: frac =>
        match parseDigits intPart, parseDigits frac with
        | some n, some f =>
            some ((n : ℚ) + (f : ℚ) / (10 : ℚ) ^ frac.length)
        | _, _ => none
    | _ => none
  match s.data with
  | '-' :: cs => (go cs).map (fun q => -q)
  | '+' :: cs => go cs
  | cs => go cs

/-- The `updateCell` copy-and-overwrite step on a `JSMatrix`. -/
def updateCellJS (matrix : JSMatrix) (i j : Fin 2) (value : JSNum) :
    JSMatrix :=
  fun i' j' => if i' = i ∧ j' = j then value else matrix i' j'

/-- Embeds the slider `onChange` wiring
`handleSliderChange(i, j, parseFloat(e.target.value))`: the parse result is
stored into cell `(i, j)` unconditionally — there is no guard rejecting a
failed (`NaN`) parse. -/
def sliderOnChange (matrix : JSMatrix) (i j : Fin 2) (raw : String) :
    JSMatrix :=
  updateCellJS matrix i j (parseFloatJS raw)

/-- The identity matrix as a `JSMatrix` (all cells finite). -/
def jsIdentityMatrix : JSMatrix := ![![some 1, some 0], ![some 0, some 1]]

/-- A state in the Drawing mode, for witnessing the event-machine theorems. -/
def drawingState : AppState :=
  { originalPoints := [], matrix := identityMatrix, isDrawing := true }

/-- C1: for every point `p` and 2×2 matrix `M`, `applyMatrix` returns
`(m00*x + m01*y, m10*x + m11*y)`, and applying the identity matrix
`[[1,0],[0,1]]` returns `p` unchanged. -/
theorem applyMatrix_formula_and_identity (p : Point) (m : Matrix2x2) :
    applyMatrix p m =
      { x := m 0 0 * p.x + m 0 1 * p.y, y := m 1 0 * p.x + m 1 1 * p.y } ∧
    applyMatrix p identityMatrix = p := by
  constructor
  · simp only [applyMatrix, Point.mk.injEq]
    exact ⟨by ring, by ring⟩
  · cases p with
  | mk x y =>
      simp [applyMatrix, identityMatrix, Matrix.cons_val_zero,
        Matrix.cons_val_one, Matrix.head_cons]

/-- C2: a pointer-press while Idle moves the machine to Drawing and appends
exactly one converted point; a pointer-move while Drawing appends exactly one
more; a pointer-move while Idle appends none; and a press followed by five
moves while Drawing appends exactly six points in event order. -/
theorem drawing_state_machine_appends (rect : Rect) (s t : AppState)
    (e e0 e1 e2 e3 e4 e5 : MouseEventData)
    (hs : s.isDrawing = false) (ht : t.isDrawing = true) :
    (step rect s (.mouseDown e)).isDrawing = true ∧
    (step rect s (.mouseDown e)).originalPoints
      = s.originalPoints ++ [eventPoint rect e] ∧
    (step rect t (.mouseMove e)).originalPoints
      = t.originalPoints ++ [eventPoint rect e] ∧
    (step rect s (.mouseMove e)).originalPoints = s.originalPoints ∧
    (List.foldl (step rect) s
        [.mouseDown e0, .mouseMove e1, .mouseMove e2, .mouseMove e3,
          .mouseMove e4, .mouseMove e5]).originalPoints
      = s.originalPoints ++
          [eventPoint rect e0, eventPoint rect e1, eventPoint rect e2,
            eventPoint rect e3, eventPoint rect e4, eventPoint rect e5] := by
  refine ⟨rfl, rfl, ?_, ?_, ?_⟩
  · simp [step, handleMouseMove, ht, addPointFromEvent]
  · simp [step, handleMouseMove, hs]
  · simp [step, handleMouseDown, handleMouseMove, addPointFromEvent,
      List.foldl]

/-- Closed instance of `drawing_state_machine_appends` at the initial state,
a Drawing-mode state, and six concrete mouse events. -/
theorem drawing_state_machine_appends_witness :
    initialState.isDrawing = false ∧ drawingState.isDrawing = true ∧
    ((step ⟨0, 0⟩ initialState (.mouseDown ⟨1, 1⟩)).isDrawing = true ∧
      (step ⟨0, 0⟩ initialState (.mouseDown ⟨1, 1⟩)).originalPoints
        = initialState.originalPoints ++ [eventPoint ⟨0, 0⟩ ⟨1, 1⟩] ∧
      (step ⟨0, 0⟩ drawingState (.mouseMove ⟨1, 1⟩)).originalPoints
        = drawingState.originalPoints ++ [eventPoint ⟨0, 0⟩ ⟨1, 1⟩] ∧
      (step ⟨0, 0⟩ initialState (.mouseMove ⟨1, 1⟩)).originalPoints
        = initialState.originalPoints ∧
      (List.foldl (step ⟨0, 0⟩) initialState
          [.mouseDown ⟨1, 1⟩, .mouseMove ⟨2, 2⟩, .mouseMove ⟨3, 3⟩,
            .mouseMove ⟨4, 4⟩, .mouseMove ⟨5, 5⟩,
            .mouseMove ⟨6, 6⟩]).originalPoints
        = initialState.originalPoints ++
            [eventPoint ⟨0, 0⟩ ⟨1, 1⟩, eventPoint ⟨0, 0⟩ ⟨2, 2⟩,
              eventPoint ⟨0, 0⟩ ⟨3, 3⟩, eventPoint ⟨0, 0⟩ ⟨4, 4⟩,
              eventPoint ⟨0, 0⟩ ⟨5, 5⟩, eventPoint ⟨0, 0⟩ ⟨6, 6⟩]) :=
  ⟨rfl, rfl,
    drawing_state_machine_appends ⟨0, 0⟩ initialState drawingState
      ⟨1, 1⟩ ⟨1, 1⟩ ⟨2, 2⟩ ⟨3, 3⟩ ⟨4, 4⟩ ⟨5, 5⟩ ⟨6, 6⟩ rfl rfl⟩

/-- C4: converting device coordinates on the drawing surface to plane
coordinates and back is the identity: `toDevice (toPlane dx dy) = (dx, dy)`
under the y-flip convention the program uses. -/
theorem toDevice_toPlane_roundtrip (dx dy : ℚ)
    (hx0 : 0 ≤ dx) (hx1 : dx ≤ CANVAS_WIDTH)
    (hy0 : 0 ≤ dy) (hy1 : dy ≤ CANVAS_HEIGHT) :
    toDevice (toPlane dx dy) = (dx, dy) := by
  simp only [toDevice, toPlane, Prod.mk.injEq]
  exact ⟨by ring, by ring⟩

/-- Closed instance of `toDevice_toPlane_roundtrip` at the device point
`(10, 20)`. -/
theorem toDevice_toPlane_roundtrip_witness :
    (0 : ℚ) ≤ 10 ∧ (10 : ℚ) ≤ CANVAS_WIDTH ∧
    (0 : ℚ) ≤ 20 ∧ (20 : ℚ) ≤ CANVAS_HEIGHT ∧
    toDevice (toPlane 10 20) = (10, 20) :=
  ⟨by decide, by decide, by decide, by decide,
    toDevice_toPlane_roundtrip 10 20 (by decide) (by decide) (by decide)
      (by decide)⟩

/-- C5: from every prior state, `resetMatrix` yields the identity matrix
`[[1,0],[0,1]]`; all four cells are set in the one state transition. -/
theorem resetMatrix_yields_identity (s : AppState) :
    (resetMatrix s).matrix = identityMatrix ∧
    (∀ i j, (resetMatrix s).matrix i j = identityMatrix i j) :=
  ⟨rfl, fun _ _ => rfl⟩

/-- C6: setting cell `(i, j)` replaces exactly that cell with the new value
and leaves every other cell unchanged. -/
theorem handleSliderChange_frame (s : AppState) (i j i' j' : Fin 2) (v : ℚ)
    (h : ¬ (i' = i ∧ j' = j)) :
    (handleSliderChange s i j v).matrix i j = v ∧
    (handleSliderChange s i j v).matrix i' j' = s.matrix i' j' := by
  constructor
  · simp [handleSliderChange, updateCell]
  · simp [handleSliderChange, updateCell, h]

/-- Closed instance of `handleSliderChange_frame`: writing 7 into cell
`(0, 0)` of the initial state leaves cell `(1, 1)` unchanged. -/
theorem handleSliderChange_frame_witness :
    ¬ ((1 : Fin 2) = 0 ∧ (1 : Fin 2) = 0) ∧
    ((handleSliderChange initialState 0 0 7).matrix 0 0 = 7 ∧
      (handleSliderChange initialState 0 0 7).matrix 1 1
        = initialState.matrix 1 1) :=
  ⟨by decide, handleSliderChange_frame initialState 0 0 1 1 7 (by decide)⟩

/-- C7: `clearCanvas` empties the point collection, and the render performed
on the emptied collection with any matrix issues only the full-surface clear
and the two axis lines — no point-marker command. -/
theorem clearCanvas_renders_axes_only (s : AppState) (m : Matrix2x2) :
    (clearCanvas s).originalPoints = [] ∧
    render (clearCanvas s).originalPoints m
      = DrawCmd.clearRect 0 0 CANVAS_WIDTH CANVAS_HEIGHT :: drawAxes ∧
    (render (clearCanvas s).originalPoints m).filter isPointMarker = [] :=
  ⟨rfl, rfl, rfl⟩

/-- C8: `applyMatrix` is linear in the point: it maps a sum of points to the
sum of their images and a scalar multiple to the scalar multiple of the
image, for every matrix. -/
theorem applyMatrix_linear (p p1 p2 : Point) (k : ℚ) (m : Matrix2x2) :
    applyMatrix (p1.add p2) m = (applyMatrix p1 m).add (applyMatrix p2 m) ∧
    applyMatrix (Point.smul k p) m = Point.smul k (applyMatrix p m) := by
  constructor <;>
    · simp only [applyMatrix, Point.add, Point.smul, Point.mk.injEq]
      exact ⟨by ring, by ring⟩

/-- C9: from the Drawing state, both the pointer-release event and the
pointer-leave event return the machine to Idle, and neither appends a point. -/
theorem release_and_leave_stop_drawing (rect : Rect) (s : AppState)
    (h : s.isDrawing = true) :
    (step rect s .mouseUp).isDrawing = false ∧
    (step rect s .mouseUp).originalPoints = s.originalPoints ∧
    (step rect s .mouseLeave).isDrawing = false ∧
    (step rect s .mouseLeave).originalPoints = s.originalPoints :=
  ⟨rfl, rfl, rfl, rfl⟩

/-- Closed instance of `release_and_leave_stop_drawing` at a Drawing-mode
state. -/
theorem release_and_leave_stop_drawing_witness :
    drawingState.isDrawing = true ∧
    ((step ⟨0, 0⟩ drawingState .mouseUp).isDrawing = false ∧
      (step ⟨0, 0⟩ drawingState .mouseUp).originalPoints
        = drawingState.originalPoints ∧
      (step ⟨0, 0⟩ drawingState .mouseLeave).isDrawing = false ∧
      (step ⟨0, 0⟩ drawingState .mouseLeave).originalPoints
        = drawingState.originalPoints) :=
  ⟨rfl, release_and_leave_stop_drawing ⟨0, 0⟩ drawingState rfl⟩

/-- C10: the two stores are independent — clearing the points leaves the
matrix unchanged, and resetting the matrix or setting any cell leaves the
point collection unchanged. -/
theorem stores_independent (s : AppState) (i j : Fin 2) (v : ℚ) :
    (clearCanvas s).matrix = s.matrix ∧
    (resetMatrix s).originalPoints = s.originalPoints ∧
    (handleSliderChange s i j v).originalPoints = s.originalPoints :=
  ⟨rfl, rfl, rfl⟩

/-- C3 counterexample: on the malformed input string "abc" (which parses to
`NaN`, modelled `none`), the slider update is not ignored — cell `(0, 0)`
does not retain its prior value. -/
theorem malformed_input_not_ignored :
    parseFloatJS ("abc") = none ∧
    ¬ (sliderOnChange jsIdentityMatrix 0 0 ("abc") 0 0
        = jsIdentityMatrix 0 0) := by
  constructor <;> decide

/-- C3 amended: on a malformed (non-numeric-parsing) control input, the
update is still applied — the addressed cell is set to the `NaN` parse
result rather than retaining its prior value — while the other three cells
are unchanged and no fault is propagated. -/
theorem malformed_input_sets_nan (m : JSMatrix) (i j i' j' : Fin 2)
    (raw : String) (hmal : parseFloatJS raw = none)
    (hother : ¬ (i' = i ∧ j' = j)) :
    sliderOnChange m i j raw i j = none ∧
    sliderOnChange m i j raw i' j' = m i' j' := by
  constructor
  · simp [sliderOnChange, updateCellJS, hmal]
  · simp [sliderOnChange, updateCellJS, hother]

/-- Closed instance of `malformed_input_sets_nan` on the identity matrix and
the malformed input "abc". -/
theorem malformed_input_sets_nan_witness :
    parseFloatJS ("abc") = none ∧ ¬ ((1 : Fin 2) = 0 ∧ (1 : Fin 2) = 0) ∧
    (sliderOnChange jsIdentityMatrix 0 0 ("abc") 0 0 = none ∧
      sliderOnChange jsIdentityMatrix 0 0 ("abc") 1 1
        = jsIdentityMatrix 1 1) :=
  ⟨by decide, by decide,
    malformed_input_sets_nan jsIdentityMatrix 0 0 1 1 ("abc") (by decide)
      (by decide)⟩

end LinearAlgebraIntro
